import Mathlib

/-!
Verification of the `install-plugin` command
(`src/command/common/install_plugin_command.go`).

The command's `Execute`, `installPlugin`, `uninstallPlugin`,
`preparePluginForInstallation` and `promptForInstallPlugin` functions are
embedded shallowly.  The command's collaborators (the `InstallPluginActor`,
the UI, `shared.NewRPCService`, `util.DeterminePathType`) are not part of the
source under verification; their per-run behaviour is an input, collected in
an `Env` record, and the state they act on (filesystem and plugin registry)
is threaded explicitly as a `SysState`.  Every run additionally produces a
trace of observable events (UI output, staging, actor calls, file removal)
so that ordering properties can be stated.
-/

namespace InstallPlugin

/-- Embeds `configv3.Plugin` as the command uses it: only `Name` and
`Version.String()` are consulted, so the version is kept as its rendered
string. -/
structure Plugin where
  name : String
  version : String
deriving DecidableEq

/-- One entry of the durable plugin registry: plugin name, version and the
absolute path of its installed binary. -/
structure PluginEntry where
  name : String
  version : String
  binPath : String
deriving DecidableEq

/-- The state the command and its collaborators act on: the set of files
present on disk (as a list of paths) and the plugin registry. -/
structure SysState where
  fs : List String
  registry : List PluginEntry
deriving DecidableEq

/-- Result of `util.DeterminePathType`.  Modelled from the spec: the
classifier decides whether the user string is a local file path, an HTTP(S)
URL, or neither (a plugin name for a repository lookup); its code is not in
`src/`. -/
inductive PathType
  | filePath
  | httpPath
  | pluginName
deriving DecidableEq

/-- The error values the command returns (or that its collaborators can
return through it).  Collaborator errors carry an opaque message.
`fetchFailure` is `FetchError` from the spec's taxonomy: the command itself
never constructs it (see the C4 analysis below). -/
inductive CmdError
  | requiredArgument (arg : String)
  | fileNotFound (path : String)
  | promptFailure (msg : String)
  | installationCancelled
  | unsupportedURLScheme (url : String)
  | copyFailure (msg : String)
  | rpcServiceFailure (msg : String)
  | pluginInvalid (path : String)
  | validationFailure (msg : String)
  | alreadyInstalled (name : String) (version : String) (path : String)
  | uninstallFailure (msg : String)
  | installFailure (msg : String)
  | fetchFailure (msg : String)
deriving DecidableEq

/-- Observable events of one run, in order. -/
inductive Event
  | legacyMain
  | displayHeader (msg : String)
  | displayText (msg : String)
  | displayOK
  | boolPrompt (msg : String)
  | fetchCalled (url : String)
  | fileStaged (path : String)
  | validateCalled (path : String)
  | uninstallCalled (name : String)
  | installCalled (path : String) (name : String)
  | fileRemoved (path : String)
deriving DecidableEq

/-- How the command terminates: normally with `nil` (`ok`), with an error,
or by a Go runtime panic (nil dereference). -/
inductive Outcome
  | ok
  | error (e : CmdError)
  | panicked
deriving DecidableEq

/-- The behaviour of the command's collaborators during one run, plus the
parsed command-line inputs.  Each field corresponds to one call site in
`Execute`/`preparePluginForInstallation`. -/
structure Env where
  /-- Value of `Config.Experimental()`. -/
  experimental : Bool
  /-- the `-f` flag. -/
  force : Bool
  /-- the `-r` flag.  Parsed by the flag layer; `Execute` never reads it. -/
  registeredRepository : String
  /-- Value of `OptionalArgs.PathURLOrPluginName`. -/
  arg : String
  /-- Modelled from the spec: the classification `util.DeterminePathType`
  gives to `arg` (its code is not in `src/`). -/
  pathType : PathType
  /-- Result of `UI.DisplayBoolPrompt`: an answer, or a prompt error. -/
  promptAnswer : Except CmdError Bool
  /-- path returned by `Actor.CreateExecutableCopy`. -/
  copyPath : String
  /-- error returned by `Actor.CreateExecutableCopy`. -/
  copyErr : Option CmdError
  /-- path returned by `Actor.FetchPluginFromURL`. -/
  fetchPath : String
  /-- error returned by `Actor.FetchPluginFromURL`.  The command discards
  it (`downloadedPath, _ :=` at line 159), so `Execute` never reads this
  field. -/
  fetchErr : Option CmdError
  /-- whether the fetch actually created a file at `fetchPath`. -/
  fetchCreates : Bool
  /-- error returned by `shared.NewRPCService`. -/
  rpcErr : Option CmdError
  /-- result of `Actor.GetAndValidatePlugin`: the validated plugin
  metadata, or a validation/communication error. -/
  validateResult : Except CmdError Plugin
  /-- error returned by `Actor.UninstallPlugin`. -/
  uninstallErr : Option CmdError
  /-- error returned by `Actor.InstallPluginFromPath`. -/
  installErr : Option CmdError

/-- Embeds `os.Remove`: deleting a path from the filesystem. -/
def removeFile (p : String) (fs : List String) : List String :=
  fs.filter (fun q => q != p)

/-- Embeds `Actor.IsPluginInstalled`: whether the registry has an entry for
the name. -/
def isInstalled (reg : List PluginEntry) (name : String) : Bool :=
  reg.any (fun e => e.name == name)

/-- The registry entry for a name, if any. -/
def lookupEntry (reg : List PluginEntry) (name : String) : Option PluginEntry :=
  reg.find? (fun e => e.name == name)

/-- Modelled from the spec: the effect of `Actor.UninstallPlugin` (code not
in `src/`) — `Registry.remove` plus deletion of the entry's installed
binary; removing a nonexistent name is a no-op. -/
def uninstallEffect (s : SysState) (name : String) : SysState :=
  match lookupEntry s.registry name with
  | some e =>
      { fs := removeFile e.binPath s.fs,
        registry := s.registry.filter (fun en => en.name != name) }
  | none => { s with registry := s.registry.filter (fun en => en.name != name) }

/-- Modelled from the spec: the permanent install location for a plugin
binary. -/
def installLocation (name : String) : String := "plugins/" ++ name

/-- Modelled from the spec: the effect of `Actor.InstallPluginFromPath`
(code not in `src/`) — move the staged binary to its permanent install
location, then `Registry.add` (overwriting any entry of the same name). -/
def installEffect (s : SysState) (temp : String) (p : Plugin) : SysState :=
  { fs := installLocation p.name :: removeFile temp s.fs,
    registry :=
      ⟨p.name, p.version, installLocation p.name⟩ ::
        s.registry.filter (fun en => en.name != p.name) }

def attentionHeader : String :=
  "Attention: Plugins are binaries written by potentially untrusted authors."

def riskHeader : String := "Install and use plugins at your own risk."

-- UI message tags; the original templates interpolate the path or plugin
-- name, which is immaterial to the claims.
def promptFileMsg : String := "Do you want to install the plugin?"

def promptURLMsg : String := "Do you want to install the plugin from the URL?"

def downloadMsg : String := "Starting download of plugin binary from URL..."

def bytesMsg : String := "bytes downloaded..."

def alreadyInstalledMsg : String :=
  "Plugin is already installed. Uninstalling existing plugin..."

def uninstalledMsg : String := "Plugin successfully uninstalled."

def installingMsg : String := "Installing plugin..."

def installedMsg : String := "Plugin successfully installed."

/-- Embeds `promptForInstallPlugin` (lines 171-188): always display the two
warning headers; when the force flag is not set, issue the boolean prompt
(default `false`), translating a prompt error into that error and a `no`
answer into `PluginInstallationCancelled`. -/
def promptForInstallPlugin (env : Env) (msg : String) :
    Option CmdError × List Event :=
  let tr : List Event := [.displayHeader attentionHeader, .displayHeader riskHeader]
  if env.force then (none, tr)
  else
    match env.promptAnswer with
    | .error e => (some e, tr ++ [.boolPrompt msg])
    | .ok true => (none, tr ++ [.boolPrompt msg])
    | .ok false => (some .installationCancelled, tr ++ [.boolPrompt msg])

/-- Result of `preparePluginForInstallation`: the returned
`(path, error)` pair, or a Go runtime panic inside the function. -/
inductive PrepResult
  | ret (path : String) (err : Option CmdError)
  | panic
deriving DecidableEq

/-- Embeds `preparePluginForInstallation` (lines 134-169).  For a file path:
existence check, prompt, then `CreateExecutableCopy` (whose pair is
returned as-is).  For an HTTP path: prompt, then fetch — the fetch error is
discarded (line 159), the downloaded path is `os.Stat`-ed with the error
discarded, and `stat.Size()` is read: if the stat failed, `stat` is a nil
interface and the method call panics.  Anything else:
`UnsupportedURLSchemeError`. -/
def preparePluginForInstallation (env : Env) (s : SysState) :
    PrepResult × SysState × List Event :=
  match env.pathType with
  | .filePath =>
      if s.fs.contains env.arg then
        match promptForInstallPlugin env promptFileMsg with
        | (some e, tr) => (.ret "" (some e), s, tr)
        | (none, tr) =>
            (.ret env.copyPath env.copyErr,
              { s with fs := env.copyPath :: s.fs },
              tr ++ [.fileStaged env.copyPath])
      else (.ret "" (some (.fileNotFound env.arg)), s, [])
  | .httpPath =>
      match promptForInstallPlugin env promptURLMsg with
      | (some e, tr) => (.ret "" (some e), s, tr)
      | (none, tr) =>
          let tr := tr ++ [.displayText downloadMsg, .fetchCalled env.arg]
          -- `os.Stat(downloadedPath)` succeeds exactly when the file is on
          -- disk: always when the fetch just created it, otherwise only
          -- when the path already existed.
          if env.fetchCreates then
            (.ret env.fetchPath none, { s with fs := env.fetchPath :: s.fs },
              tr ++ [.fileStaged env.fetchPath, .displayText bytesMsg])
          else if s.fs.contains env.fetchPath then
            (.ret env.fetchPath none, s, tr ++ [.displayText bytesMsg])
          else (.panic, s, tr)
  | .pluginName => (.ret "" (some (.unsupportedURLScheme env.arg)), s, [])

/-- The `defer os.Remove(tempPluginPath)` of line 60: every exit of
`Execute` after `preparePluginForInstallation` returned removes the staged
temporary path. -/
def finish (temp : String) (o : Outcome) (s : SysState) (tr : List Event) :
    Outcome × SysState × List Event :=
  (o, { s with fs := removeFile temp s.fs }, tr ++ [.fileRemoved temp])

/-- The `PluginInvalidError` path rewrite of lines 72-76 followed by
`shared.HandleError` (modelled as the identity on the error value). -/
def handleValidateError (e : CmdError) (orig : String) : CmdError :=
  match e with
  | .pluginInvalid _ => .pluginInvalid orig
  | e => e

/-- Embeds `installPlugin` (lines 97-113): display, `InstallPluginFromPath`,
propagate its error, display success. -/
def installPlugin (env : Env) (temp : String) (p : Plugin) (s : SysState)
    (tr : List Event) : Outcome × SysState × List Event :=
  let tr := tr ++ [.displayText installingMsg, .installCalled temp p.name]
  match env.installErr with
  | some e => finish temp (.error e) s tr
  | none =>
      finish temp .ok (installEffect s temp p)
        (tr ++ [.displayOK, .displayText installedMsg])

/-- Embeds `uninstallPlugin` (lines 115-132): display, `Actor.UninstallPlugin`,
propagate its error, display success. -/
def uninstallPlugin (env : Env) (p : Plugin) (s : SysState) (tr : List Event) :
    Option CmdError × SysState × List Event :=
  let tr := tr ++ [.displayText alreadyInstalledMsg, .uninstallCalled p.name]
  match env.uninstallErr with
  | some e => (some e, s, tr)
  | none =>
      (none, uninstallEffect s p.name,
        tr ++ [.displayOK, .displayText uninstalledMsg])

/-- The part of `Execute` after `preparePluginForInstallation` returned
(lines 58-94): the deferred removal of the returned temporary path applies
to every exit; then RPC service creation, validation, the
already-installed check with the force-gated uninstall, and the final
install. -/
def executeAfterPrepare (env : Env) (temp : String) (oerr : Option CmdError)
    (s : SysState) (tr : List Event) : Outcome × SysState × List Event :=
  match oerr with
  | some e => finish temp (.error e) s tr
  | none =>
      match env.rpcErr with
      | some e => finish temp (.error e) s tr
      | none =>
          match env.validateResult with
          | .error e =>
              finish temp (.error (handleValidateError e env.arg)) s
                (tr ++ [.validateCalled temp])
          | .ok p =>
              let tr := tr ++ [.validateCalled temp]
              if isInstalled s.registry p.name then
                if env.force then
                  match uninstallPlugin env p s tr with
                  | (some e, s1, tr1) => finish temp (.error e) s1 tr1
                  | (none, s1, tr1) => installPlugin env temp p s1 tr1
                else
                  finish temp
                    (.error (.alreadyInstalled p.name p.version env.arg)) s tr
              else installPlugin env temp p s tr

/-- Embeds `Execute` (lines 46-95).  With the experimental flag off, delegate to
`oldCmd.Main` and return `nil`.  Otherwise: required-argument check, then
`preparePluginForInstallation` with the deferred temp-file removal, then
the rest of the pipeline. -/
def Execute (env : Env) (s : SysState) : Outcome × SysState × List Event :=
  if env.experimental then
    if env.arg == "" then
      (.error (.requiredArgument "PATH_URL_PLUGIN_NAME"), s, [])
    else
      match preparePluginForInstallation env s with
      | (.panic, s1, tr1) => (.panicked, s1, tr1)
      | (.ret temp oerr, s1, tr1) => executeAfterPrepare env temp oerr s1 tr1
  else (.ok, s, [.legacyMain])

def outcomeOf (r : Outcome × SysState × List Event) : Outcome := r.1

def stateOf (r : Outcome × SysState × List Event) : SysState := r.2.1

def traceOf (r : Outcome × SysState × List Event) : List Event := r.2.2

/-- Event-shape predicates for trace properties. -/
def isHeaderEv : Event → Bool
  | .displayHeader _ => true
  | _ => false

def isBoolPromptEv : Event → Bool
  | .boolPrompt _ => true
  | _ => false

def isStagedEv : Event → Bool
  | .fileStaged _ => true
  | _ => false

def isValidateEv : Event → Bool
  | .validateCalled _ => true
  | _ => false

def isUninstallEv : Event → Bool
  | .uninstallCalled _ => true
  | _ => false

def isInstallEv : Event → Bool
  | .installCalled _ _ => true
  | _ => false

/-- Index of the first event satisfying `p`, counting from `i`. -/
def firstIdxFrom (p : Event → Bool) : List Event → Nat → Option Nat
  | [], _ => none
  | e :: tr, i => if p e then some i else firstIdxFrom p tr (i + 1)

/-- `p`-events start strictly before `q`-events in the trace (both must
occur). -/
def precedesB (p q : Event → Bool) (tr : List Event) : Bool :=
  match firstIdxFrom p tr 0, firstIdxFrom q tr 0 with
  | some i, some j => decide (i < j)
  | _, _ => false

/-- The path a `PrepResult` returned, if it returned at all. -/
def retPath : PrepResult → Option String
  | .ret p _ => some p
  | .panic => none

/-- A concrete run: install a fresh plugin from the existing local file
`pl`, user confirms, everything succeeds. -/
def baseEnv : Env :=
  { experimental := true, force := false, registeredRepository := "",
    arg := "pl", pathType := .filePath,
    promptAnswer := .ok true,
    copyPath := "tmp/copy", copyErr := none,
    fetchPath := "tmp/dl", fetchErr := none, fetchCreates := true,
    rpcErr := none, validateResult := .ok ⟨"echo", "1.0.0"⟩,
    uninstallErr := none, installErr := none }

/-- A filesystem holding only the plugin file `pl`; empty registry. -/
def s0 : SysState := { fs := ["pl"], registry := [] }

def emptyState : SysState := { fs := [], registry := [] }

/-- State with plugin `echo` version 1.0.0 already installed. -/
def sEchoInstalled : SysState :=
  { fs := ["pl", "plugins/echo"],
    registry := [⟨"echo", "1.0.0", "plugins/echo"⟩] }

/-- Installing a candidate `echo` 2.0.0 over the installed 1.0.0. -/
def envNewVersion : Env :=
  { baseEnv with validateResult := .ok ⟨"echo", "2.0.0"⟩ }

def envForceReinstall : Env := { envNewVersion with force := true }

/-- State after staging in the `envNewVersion`/`sEchoInstalled` run. -/
def sEchoAfterPrep : SysState :=
  { fs := ["tmp/copy", "pl", "plugins/echo"],
    registry := [⟨"echo", "1.0.0", "plugins/echo"⟩] }

/-- Prepare-phase trace when the prompt is answered yes. -/
def trFilePrompt : List Event :=
  [.displayHeader attentionHeader, .displayHeader riskHeader,
   .boolPrompt promptFileMsg, .fileStaged "tmp/copy"]

/-- Prepare-phase trace when force skips the prompt. -/
def trForcePrep : List Event :=
  [.displayHeader attentionHeader, .displayHeader riskHeader,
   .fileStaged "tmp/copy"]

/-- URL install whose fetch fails having created no file: the returned
path is empty and the reported error is discarded by the command. -/
def envFetchFail : Env :=
  { baseEnv with
    pathType := .httpPath, arg := "https://example.com/plugin",
    force := true, fetchPath := "",
    fetchErr := some (.fetchFailure "connection refused"),
    fetchCreates := false }

/-- URL install whose fetch reports an error but leaves a partial file. -/
def envFetchPartial : Env :=
  { baseEnv with
    pathType := .httpPath, arg := "https://example.com/plugin",
    force := true, fetchPath := "tmp/partial",
    fetchErr := some (.fetchFailure "truncated body"),
    fetchCreates := true }

/-- Local-path install where the user declines the prompt. -/
def envDecline : Env := { baseEnv with promptAnswer := .ok false }

/-- An argument that is neither a file nor a URL, with `-r` supplied. -/
def envRepoName : Env :=
  { baseEnv with
    arg := "plugin-echo", pathType := .pluginName,
    registeredRepository := "My-Repo" }

def envLegacyEmptyArg : Env :=
  { baseEnv with experimental := false, arg := "" }

def envEmptyArg : Env := { baseEnv with arg := "" }

end InstallPlugin

namespace InstallPlugin

lemma not_mem_removeFile (p : String) (l : List String) : p ∉ removeFile p l := by
  simp [removeFile, List.mem_filter]

lemma mem_removeFile_of_ne (p q : String) (l : List String) (hne : q ≠ p)
    (hm : q ∈ l) : q ∈ removeFile p l := by
  simp [removeFile, List.mem_filter, hm, hne]

lemma firstIdxFrom_shift (p : Event → Bool) (l : List Event) (i : Nat) :
    firstIdxFrom p l i = (firstIdxFrom p l 0).map (fun k => k + i) := by
  induction l generalizing i with
  | nil => simp [firstIdxFrom]
  | cons e tl ih =>
      by_cases hpe : p e = true
      · simp [firstIdxFrom, hpe]
      · simp only [firstIdxFrom, hpe, if_false, Bool.false_eq_true, if_neg,
          not_false_iff]
        rw [ih (i + 1), ih 1]
        cases firstIdxFrom p tl 0
        · simp
        · simp
          omega

lemma firstIdxFrom_append_of_not (p : Event → Bool) (l1 l2 : List Event)
    (h : l1.any p = false) (i : Nat) :
    firstIdxFrom p (l1 ++ l2) i = firstIdxFrom p l2 (i + l1.length) := by
  induction l1 generalizing i with
  | nil => simp [firstIdxFrom]
  | cons e tl ih =>
      simp only [List.any_cons, Bool.or_eq_false_iff] at h
      obtain ⟨he, htl⟩ := h
      rw [List.cons_append]
      rw [show firstIdxFrom p (e :: (tl ++ l2)) i = firstIdxFrom p (tl ++ l2) (i + 1) from
        by simp [firstIdxFrom, he]]
      rw [ih htl (i + 1)]
      congr 1
      simp only [List.length_cons]
      omega

lemma precedesB_append_left (p q : Event → Bool) (l1 l2 : List Event)
    (hp : l1.any p = false) (hq : l1.any q = false) :
    precedesB p q (l1 ++ l2) = precedesB p q l2 := by
  unfold precedesB
  rw [firstIdxFrom_append_of_not p l1 l2 hp 0,
    firstIdxFrom_append_of_not q l1 l2 hq 0,
    firstIdxFrom_shift p l2 (0 + l1.length), firstIdxFrom_shift q l2 (0 + l1.length)]
  cases firstIdxFrom p l2 0 <;> cases firstIdxFrom q l2 0 <;> simp

end InstallPlugin


namespace InstallPlugin

lemma finish_temp_notin (temp : String) (o : Outcome) (s : SysState)
    (tr : List Event) : temp ∉ ((finish temp o s tr).2.1).fs := by
  simp [finish, removeFile, List.mem_filter]

lemma finish_staged (temp : String) (o : Outcome) (s : SysState)
    (tr : List Event) (q : String)
    (h : Event.fileStaged q ∈ (finish temp o s tr).2.2) :
    Event.fileStaged q ∈ tr := by
  simpa [finish] using h

lemma staged_mem_append (q : String) (l1 l2 : List Event)
    (h2 : l2.any isStagedEv = false)
    (h : Event.fileStaged q ∈ l1 ++ l2) : Event.fileStaged q ∈ l1 := by
  rcases List.mem_append.mp h with h1 | h1
  · exact h1
  · have htrue : l2.any isStagedEv = true :=
      List.any_eq_true.mpr ⟨_, h1, by simp [isStagedEv]⟩
    rw [h2] at htrue
    exact absurd htrue (by simp)

lemma prompt_trace_cases (env : Env) (m : String) :
    (promptForInstallPlugin env m).2 =
      [.displayHeader attentionHeader, .displayHeader riskHeader] ∨
    (promptForInstallPlugin env m).2 =
      [.displayHeader attentionHeader, .displayHeader riskHeader, .boolPrompt m] := by
  unfold promptForInstallPlugin
  by_cases hf : env.force
  · simp [hf]
  · rcases henv : env.promptAnswer with e | b
    · simp [hf, henv]
    · cases b <;> simp [hf, henv]

lemma prompt_pair_trace (env : Env) (m : String) (oe : Option CmdError)
    (tr : List Event) (h : promptForInstallPlugin env m = (oe, tr)) :
    tr = [.displayHeader attentionHeader, .displayHeader riskHeader] ∨
    tr = [.displayHeader attentionHeader, .displayHeader riskHeader, .boolPrompt m] := by
  have hc := prompt_trace_cases env m
  rw [h] at hc
  exact hc

end InstallPlugin

namespace InstallPlugin

set_option maxHeartbeats 800000 in
lemma prepare_spec (env : Env) (s : SysState) :
    ((preparePluginForInstallation env s).2.1).registry = s.registry ∧
    (∀ q, q ∈ s.fs → q ∈ ((preparePluginForInstallation env s).2.1).fs) ∧
    ((preparePluginForInstallation env s).2.2).any isUninstallEv = false ∧
    ((preparePluginForInstallation env s).2.2).any isInstallEv = false ∧
    (∀ q, Event.fileStaged q ∈ (preparePluginForInstallation env s).2.2 →
        retPath (preparePluginForInstallation env s).1 = some q) := by
  unfold preparePluginForInstallation
  split
  · split
    · split
      next e tr heq =>
        rcases prompt_pair_trace _ _ _ _ heq with h | h <;> subst h <;>
          exact ⟨rfl, fun q hq => hq, by simp [isUninstallEv, isInstallEv],
            by simp [isUninstallEv, isInstallEv], by simp⟩
      next tr heq =>
        rcases prompt_pair_trace _ _ _ _ heq with h | h <;> subst h <;>
          refine ⟨rfl, fun q hq => List.mem_cons_of_mem _ hq, ?_, ?_, ?_⟩ <;>
          simp [retPath, isUninstallEv, isInstallEv]
    · exact ⟨rfl, fun q hq => hq, by simp, by simp, by simp⟩
  · split
    next e tr heq =>
      rcases prompt_pair_trace _ _ _ _ heq with h | h <;> subst h <;>
        exact ⟨rfl, fun q hq => hq, by simp [isUninstallEv, isInstallEv],
          by simp [isUninstallEv, isInstallEv], by simp⟩
    next tr heq =>
      rcases prompt_pair_trace _ _ _ _ heq with h | h <;> subst h <;>
        dsimp only <;> split_ifs <;>
        refine ⟨rfl, fun q hq => ?_, ?_, ?_, ?_⟩ <;>
        first
          | exact List.mem_cons_of_mem _ hq
          | exact hq
          | simp [retPath, isUninstallEv, isInstallEv]
  · exact ⟨rfl, fun q hq => hq, by simp, by simp, by simp⟩

end InstallPlugin

namespace InstallPlugin

lemma installPlugin_temp_notin (env : Env) (temp : String) (p : Plugin)
    (s : SysState) (tr : List Event) :
    temp ∉ ((installPlugin env temp p s tr).2.1).fs := by
  unfold installPlugin
  cases env.installErr <;> exact finish_temp_notin _ _ _ _

lemma installPlugin_trace (env : Env) (temp : String) (p : Plugin)
    (s : SysState) (tr : List Event) :
    ∃ rest : List Event, (installPlugin env temp p s tr).2.2 = tr ++ rest ∧
      rest.any isStagedEv = false := by
  unfold installPlugin finish
  cases env.installErr
  · exact ⟨[.displayText installingMsg, .installCalled temp p.name,
      .displayOK, .displayText installedMsg, .fileRemoved temp],
      by simp, by simp [isStagedEv]⟩
  · exact ⟨[.displayText installingMsg, .installCalled temp p.name,
      .fileRemoved temp], by simp, by simp [isStagedEv]⟩

lemma uninstallPlugin_trace (env : Env) (p : Plugin) (s : SysState)
    (tr : List Event) :
    ∃ rest : List Event, (uninstallPlugin env p s tr).2.2 = tr ++ rest ∧
      rest.any isStagedEv = false := by
  unfold uninstallPlugin
  cases env.uninstallErr
  · exact ⟨[.displayText alreadyInstalledMsg, .uninstallCalled p.name,
      .displayOK, .displayText uninstalledMsg], by simp, by simp [isStagedEv]⟩
  · exact ⟨[.displayText alreadyInstalledMsg, .uninstallCalled p.name],
      by simp, by simp [isStagedEv]⟩

set_option maxHeartbeats 800000 in
lemma eap_spec (env : Env) (temp : String) (oerr : Option CmdError)
    (s : SysState) (tr : List Event) :
    temp ∉ ((executeAfterPrepare env temp oerr s tr).2.1).fs ∧
    (∀ q, Event.fileStaged q ∈ (executeAfterPrepare env temp oerr s tr).2.2 →
        Event.fileStaged q ∈ tr) := by
  unfold executeAfterPrepare
  split
  · exact ⟨finish_temp_notin _ _ _ _, fun q h => finish_staged _ _ _ _ _ h⟩
  · split
    · exact ⟨finish_temp_notin _ _ _ _, fun q h => finish_staged _ _ _ _ _ h⟩
    · split
      next e he =>
        refine ⟨finish_temp_notin _ _ _ _, fun q h => ?_⟩
        have h2 := finish_staged _ _ _ _ _ h
        exact staged_mem_append q tr _ (by simp [isStagedEv]) h2
      next p hp =>
        dsimp only
        split
        · split
          · split
            next e s1 tr1 hequ =>
              refine ⟨finish_temp_notin _ _ _ _, fun q h => ?_⟩
              have h2 := finish_staged _ _ _ _ _ h
              obtain ⟨rest, hr, hrs⟩ :=
                uninstallPlugin_trace env p s (tr ++ [.validateCalled temp])
              have htr1 : tr1 = (tr ++ [Event.validateCalled temp]) ++ rest := by
                rw [← hr, hequ]
              rw [htr1, List.append_assoc] at h2
              exact staged_mem_append q tr _
                (by simp [List.any_append, hrs, isStagedEv]) h2
            next s1 tr1 hequ =>
              refine ⟨installPlugin_temp_notin _ _ _ _ _, fun q h => ?_⟩
              obtain ⟨rest2, hr2, hrs2⟩ := installPlugin_trace env temp p s1 tr1
              rw [hr2] at h
              have h2 := staged_mem_append q tr1 rest2 hrs2 h
              obtain ⟨rest, hr, hrs⟩ :=
                uninstallPlugin_trace env p s (tr ++ [.validateCalled temp])
              have htr1 : tr1 = (tr ++ [Event.validateCalled temp]) ++ rest := by
                rw [← hr, hequ]
              rw [htr1, List.append_assoc] at h2
              exact staged_mem_append q tr _
                (by simp [List.any_append, hrs, isStagedEv]) h2
          · refine ⟨finish_temp_notin _ _ _ _, fun q h => ?_⟩
            have h2 := finish_staged _ _ _ _ _ h
            exact staged_mem_append q tr _ (by simp [isStagedEv]) h2
        · refine ⟨installPlugin_temp_notin _ _ _ _ _, fun q h => ?_⟩
          obtain ⟨rest2, hr2, hrs2⟩ :=
            installPlugin_trace env temp p s (tr ++ [.validateCalled temp])
          rw [hr2, List.append_assoc] at h
          exact staged_mem_append q tr _
            (by simp [List.any_append, hrs2, isStagedEv]) h

end InstallPlugin

namespace InstallPlugin

lemma mem_of_mem_removeFile (p q : String) (l : List String)
    (h : q ∈ removeFile p l) : q ∈ l := (List.mem_filter.mp h).1

lemma removeFile_of_not_mem (p : String) (l : List String) (h : p ∉ l) :
    removeFile p l = l := by
  unfold removeFile
  apply List.filter_eq_self.mpr
  intro a ha
  exact bne_iff_ne.mpr (fun hc => h (hc ▸ ha))

lemma filter_idem_entries (pr : PluginEntry → Bool) (l : List PluginEntry) :
    (l.filter pr).filter pr = l.filter pr := by
  induction l with
  | nil => rfl
  | cons e tl ih => by_cases h : pr e <;> simp [List.filter_cons, h, ih]

lemma uninstallEffect_registry (s : SysState) (name : String) :
    (uninstallEffect s name).registry =
      s.registry.filter (fun en => en.name != name) := by
  unfold uninstallEffect
  cases lookupEntry s.registry name <;> rfl

lemma prompt_force_true (env : Env) (m : String) (h : env.force = true) :
    promptForInstallPlugin env m =
      (none, [.displayHeader attentionHeader, .displayHeader riskHeader]) := by
  simp [promptForInstallPlugin, h]

/-- C10: with the experimental flag off, `Execute` only runs the legacy
command and returns `nil`; state is untouched and no pipeline event
happens. -/
theorem experimental_off_delegates (env : Env) (s : SysState)
    (hexp : env.experimental = false) :
    Execute env s = (.ok, s, [.legacyMain]) := by
  simp [Execute, hexp]

/-- Witness for C10 at a concrete input. -/
theorem experimental_off_delegates_witness :
    envLegacyEmptyArg.experimental = false ∧
    Execute envLegacyEmptyArg s0 = (.ok, s0, [.legacyMain]) :=
  ⟨rfl, experimental_off_delegates envLegacyEmptyArg s0 rfl⟩

/-- C9 (amended): under the experimental pipeline an empty argument fails
with the required-argument error with no state change and an empty event
trace. -/
theorem empty_arg_required_error (env : Env) (s : SysState)
    (hexp : env.experimental = true) (harg : env.arg = "") :
    Execute env s = (.error (.requiredArgument "PATH_URL_PLUGIN_NAME"), s, []) := by
  simp [Execute, hexp, harg]

/-- Witness for C9 at a concrete input. -/
theorem empty_arg_required_error_witness :
    envEmptyArg.experimental = true ∧ envEmptyArg.arg = "" ∧
    Execute envEmptyArg s0 =
      (.error (.requiredArgument "PATH_URL_PLUGIN_NAME"), s0, []) :=
  ⟨rfl, rfl, empty_arg_required_error envEmptyArg s0 rfl rfl⟩

/-- C9 counterexample: with the experimental flag off, an empty positional
argument does not produce the required-argument error — `Execute` delegates
to the legacy command and returns `nil`. -/
theorem empty_arg_legacy_no_error :
    Execute envLegacyEmptyArg s0 = (.ok, s0, [.legacyMain]) ∧
    (Outcome.ok ≠ .error (.requiredArgument "PATH_URL_PLUGIN_NAME")) :=
  ⟨by decide, by decide⟩

/-- C5: declining the confirmation prompt for an existing local-path source
yields the distinct cancellation error, leaves filesystem and registry
unchanged, and stages nothing. -/
theorem decline_prompt_cancels (env : Env) (s : SysState)
    (hexp : env.experimental = true) (harg : env.arg ≠ "")
    (hpt : env.pathType = PathType.filePath)
    (hfile : s.fs.contains env.arg = true)
    (hforce : env.force = false)
    (hans : env.promptAnswer = .ok false)
    (hnil : "" ∉ s.fs) :
    outcomeOf (Execute env s) = .error .installationCancelled ∧
    (stateOf (Execute env s)).registry = s.registry ∧
    (stateOf (Execute env s)).fs = s.fs ∧
    (traceOf (Execute env s)).any isStagedEv = false := by
  have hargB : (env.arg == "") = false := by simp [harg]
  have hmem : env.arg ∈ s.fs := by simpa using hfile
  simp [Execute, outcomeOf, stateOf, traceOf, hexp, hargB,
    preparePluginForInstallation, hpt, hmem, promptForInstallPlugin, hforce,
    hans, executeAfterPrepare, finish, isStagedEv,
    removeFile_of_not_mem _ _ hnil]

/-- Witness for C5 at a concrete input. -/
theorem decline_prompt_cancels_witness :
    envDecline.promptAnswer = .ok false ∧
    outcomeOf (Execute envDecline s0) = .error .installationCancelled ∧
    (stateOf (Execute envDecline s0)).fs = s0.fs :=
  ⟨rfl,
    (decline_prompt_cancels envDecline s0 rfl (by decide) rfl rfl rfl rfl
      (by decide)).1,
    (decline_prompt_cancels envDecline s0 rfl (by decide) rfl rfl rfl rfl
      (by decide)).2.2.1⟩

/-- C3: any path recorded as staged during a run is gone from the
filesystem when `Execute` returns. -/
theorem staged_binary_never_remains (env : Env) (s : SysState) (q : String)
    (hst : Event.fileStaged q ∈ traceOf (Execute env s)) :
    q ∉ (stateOf (Execute env s)).fs := by
  by_cases hexp : env.experimental = true
  · by_cases harg : env.arg = ""
    · simp [Execute, traceOf, hexp, harg] at hst
    · have hargB : (env.arg == "") = false := by simp [harg]
      rcases hprep : preparePluginForInstallation env s with ⟨r, s1, tr1⟩
      have h5 := (prepare_spec env s).2.2.2.2 q
      rw [hprep] at h5
      cases r with
      | panic =>
          simp [Execute, traceOf, hexp, hargB, hprep] at hst
          have hps := h5 hst
          simp [retPath] at hps
      | ret temp oerr =>
          simp [Execute, traceOf, stateOf, hexp, hargB, hprep] at hst ⊢
          have hmem := (eap_spec env temp oerr s1 tr1).2 q hst
          have heq := h5 hmem
          simp [retPath] at heq
          subst heq
          exact (eap_spec env temp oerr s1 tr1).1
  · simp [Execute, traceOf, hexp] at hst

/-- Witness for C3 at a concrete input. -/
theorem staged_binary_never_remains_witness :
    Event.fileStaged "tmp/copy" ∈ traceOf (Execute baseEnv s0) ∧
    "tmp/copy" ∉ (stateOf (Execute baseEnv s0)).fs :=
  ⟨by decide, staged_binary_never_remains baseEnv s0 "tmp/copy" (by decide)⟩

end InstallPlugin

namespace InstallPlugin

/-- C6 counterexample: in a concrete successful local-path run both a
confirmation prompt and a staging event occur, and staging does not precede
the prompt — the prompt comes first, refuting the claimed
`Staging -> AwaitingConfirmation` order. -/
theorem staging_not_before_confirmation :
    (traceOf (Execute baseEnv s0)).any isBoolPromptEv = true ∧
    (traceOf (Execute baseEnv s0)).any isStagedEv = true ∧
    precedesB isStagedEv isBoolPromptEv (traceOf (Execute baseEnv s0)) = false ∧
    precedesB isBoolPromptEv isStagedEv (traceOf (Execute baseEnv s0)) = true :=
  ⟨by decide, by decide, by decide, by decide⟩

/-- C6 (amended): the pipeline order is resolution, confirmation, staging,
validation, conflict check, optional uninstall, then commit: shown by the
exact event traces of the four staging runs — a fresh install and a force
reinstall, each from a local file (executable-copy staging) and from a URL
(download staging). -/
theorem pipeline_order (env : Env) (s : SysState) (p : Plugin)
    (hexp : env.experimental = true) (harg : env.arg ≠ "")
    (hrpc : env.rpcErr = none)
    (hval : env.validateResult = .ok p)
    (hinstE : env.installErr = none) :
    (env.pathType = PathType.filePath → s.fs.contains env.arg = true →
      env.copyErr = none →
      env.force = false → env.promptAnswer = .ok true →
      isInstalled s.registry p.name = false →
      traceOf (Execute env s) =
        [.displayHeader attentionHeader, .displayHeader riskHeader,
         .boolPrompt promptFileMsg, .fileStaged env.copyPath,
         .validateCalled env.copyPath, .displayText installingMsg,
         .installCalled env.copyPath p.name, .displayOK,
         .displayText installedMsg, .fileRemoved env.copyPath]) ∧
    (env.pathType = PathType.filePath → s.fs.contains env.arg = true →
      env.copyErr = none →
      env.force = true → isInstalled s.registry p.name = true →
      env.uninstallErr = none →
      traceOf (Execute env s) =
        [.displayHeader attentionHeader, .displayHeader riskHeader,
         .fileStaged env.copyPath, .validateCalled env.copyPath,
         .displayText alreadyInstalledMsg, .uninstallCalled p.name,
         .displayOK, .displayText uninstalledMsg,
         .displayText installingMsg, .installCalled env.copyPath p.name,
         .displayOK, .displayText installedMsg,
         .fileRemoved env.copyPath]) ∧
    (env.pathType = PathType.httpPath → env.fetchCreates = true →
      env.force = false → env.promptAnswer = .ok true →
      isInstalled s.registry p.name = false →
      traceOf (Execute env s) =
        [.displayHeader attentionHeader, .displayHeader riskHeader,
         .boolPrompt promptURLMsg, .displayText downloadMsg,
         .fetchCalled env.arg, .fileStaged env.fetchPath,
         .displayText bytesMsg, .validateCalled env.fetchPath,
         .displayText installingMsg, .installCalled env.fetchPath p.name,
         .displayOK, .displayText installedMsg,
         .fileRemoved env.fetchPath]) ∧
    (env.pathType = PathType.httpPath → env.fetchCreates = true →
      env.force = true → isInstalled s.registry p.name = true →
      env.uninstallErr = none →
      traceOf (Execute env s) =
        [.displayHeader attentionHeader, .displayHeader riskHeader,
         .displayText downloadMsg, .fetchCalled env.arg,
         .fileStaged env.fetchPath, .displayText bytesMsg,
         .validateCalled env.fetchPath,
         .displayText alreadyInstalledMsg, .uninstallCalled p.name,
         .displayOK, .displayText uninstalledMsg,
         .displayText installingMsg, .installCalled env.fetchPath p.name,
         .displayOK, .displayText installedMsg,
         .fileRemoved env.fetchPath]) := by
  have hargB : (env.arg == "") = false := by simp [harg]
  refine ⟨?_, ?_, ?_, ?_⟩
  · intro hpt hfile hcopy hf hpa hni
    have hmem : env.arg ∈ s.fs := by simpa using hfile
    simp [Execute, traceOf, hexp, hargB, preparePluginForInstallation, hpt,
      hmem, promptForInstallPlugin, hf, hpa, hcopy, executeAfterPrepare,
      hrpc, hval, hni, installPlugin, hinstE, finish]
  · intro hpt hfile hcopy hf hni hu
    have hmem : env.arg ∈ s.fs := by simpa using hfile
    simp [Execute, traceOf, hexp, hargB, preparePluginForInstallation, hpt,
      hmem, promptForInstallPlugin, hf, hcopy, executeAfterPrepare, hrpc,
      hval, hni, hu, uninstallPlugin, installPlugin, hinstE, finish]
  · intro hpt hcr hf hpa hni
    simp [Execute, traceOf, hexp, hargB, preparePluginForInstallation, hpt,
      hcr, promptForInstallPlugin, hf, hpa, executeAfterPrepare, hrpc, hval,
      hni, installPlugin, hinstE, finish]
  · intro hpt hcr hf hni hu
    simp [Execute, traceOf, hexp, hargB, preparePluginForInstallation, hpt,
      hcr, promptForInstallPlugin, hf, executeAfterPrepare, hrpc, hval,
      hni, hu, uninstallPlugin, installPlugin, hinstE, finish]

/-- Witness for C6 at concrete inputs: the fresh install from a local file
and the force reinstall from a URL (download staging). -/
theorem pipeline_order_witness :
    baseEnv.pathType = PathType.filePath ∧
    envFetchPartial.pathType = PathType.httpPath ∧
    traceOf (Execute baseEnv s0) =
      [.displayHeader attentionHeader, .displayHeader riskHeader,
       .boolPrompt promptFileMsg, .fileStaged "tmp/copy",
       .validateCalled "tmp/copy", .displayText installingMsg,
       .installCalled "tmp/copy" "echo", .displayOK,
       .displayText installedMsg, .fileRemoved "tmp/copy"] ∧
    traceOf (Execute envFetchPartial sEchoInstalled) =
      [.displayHeader attentionHeader, .displayHeader riskHeader,
       .displayText downloadMsg, .fetchCalled "https://example.com/plugin",
       .fileStaged "tmp/partial", .displayText bytesMsg,
       .validateCalled "tmp/partial", .displayText alreadyInstalledMsg,
       .uninstallCalled "echo", .displayOK, .displayText uninstalledMsg,
       .displayText installingMsg, .installCalled "tmp/partial" "echo",
       .displayOK, .displayText installedMsg, .fileRemoved "tmp/partial"] :=
  ⟨rfl, rfl,
    (pipeline_order baseEnv s0 ⟨"echo", "1.0.0"⟩ rfl (by decide) rfl rfl
        rfl).1 rfl (by decide) rfl rfl rfl rfl,
    (pipeline_order envFetchPartial sEchoInstalled ⟨"echo", "1.0.0"⟩ rfl
        (by decide) rfl rfl rfl).2.2.2 rfl rfl rfl (by decide) rfl⟩

/-- C7: whenever a local-path or URL install attempt stages a binary, the
untrusted-plugins warning was displayed before staging; a confirmation
prompt happened before staging exactly when the force flag is not set. -/
theorem warning_confirmation_gate (env : Env) (s : SysState)
    (hsrc : env.pathType = PathType.filePath ∨ env.pathType = PathType.httpPath)
    (hst : ((preparePluginForInstallation env s).2.2).any isStagedEv = true) :
    Event.displayHeader attentionHeader ∈ (preparePluginForInstallation env s).2.2 ∧
    precedesB isHeaderEv isStagedEv (preparePluginForInstallation env s).2.2 = true ∧
    (((preparePluginForInstallation env s).2.2).any isBoolPromptEv = true ↔
      env.force = false) ∧
    (env.force = false →
      precedesB isBoolPromptEv isStagedEv
        (preparePluginForInstallation env s).2.2 = true) := by
  rcases hsrc with hpt | hpt
  · by_cases hc : s.fs.contains env.arg = true
    · have hmem : env.arg ∈ s.fs := by simpa using hc
      by_cases hf : env.force = true
      · simp [preparePluginForInstallation, hpt, hmem,
          prompt_force_true env promptFileMsg hf, precedesB, firstIdxFrom,
          isHeaderEv, isStagedEv, isBoolPromptEv, hf]
      · have hf0 : env.force = false := by simpa using hf
        rcases hpa : env.promptAnswer with e | b
        · simp [preparePluginForInstallation, hpt, hmem,
            promptForInstallPlugin, hf0, hpa, isStagedEv] at hst
        · cases b
          · simp [preparePluginForInstallation, hpt, hmem,
              promptForInstallPlugin, hf0, hpa, isStagedEv] at hst
          · simp [preparePluginForInstallation, hpt, hmem,
              promptForInstallPlugin, hf0, hpa, precedesB, firstIdxFrom,
              isHeaderEv, isStagedEv, isBoolPromptEv]
    · have hmem : env.arg ∉ s.fs := by
        intro hx
        rw [(by simpa using hx : s.fs.contains env.arg = true)] at hc
        exact hc rfl
      simp [preparePluginForInstallation, hpt, hmem, isStagedEv] at hst
  · by_cases hcr : env.fetchCreates = true
    · by_cases hf : env.force = true
      · simp [preparePluginForInstallation, hpt,
          prompt_force_true env promptURLMsg hf, hcr, precedesB, firstIdxFrom,
          isHeaderEv, isStagedEv, isBoolPromptEv, hf]
      · have hf0 : env.force = false := by simpa using hf
        rcases hpa : env.promptAnswer with e | b
        · simp [preparePluginForInstallation, hpt, promptForInstallPlugin,
            hf0, hpa, hcr, isStagedEv] at hst
        · cases b
          · simp [preparePluginForInstallation, hpt, promptForInstallPlugin,
              hf0, hpa, hcr, isStagedEv] at hst
          · simp [preparePluginForInstallation, hpt, promptForInstallPlugin,
              hf0, hpa, hcr, precedesB, firstIdxFrom, isHeaderEv, isStagedEv,
              isBoolPromptEv]
    · have hcr0 : env.fetchCreates = false := by simpa using hcr
      rcases hpm : promptForInstallPlugin env promptURLMsg with ⟨oe, tr⟩
      rcases prompt_pair_trace _ _ _ _ hpm with h | h <;> subst h <;>
        rcases oe with _ | e <;>
        by_cases hco : env.fetchPath ∈ s.fs <;>
        simp [preparePluginForInstallation, hpt, hpm, hcr0, hco,
          isStagedEv] at hst

/-- Witness for C7 at a concrete input. -/
theorem warning_confirmation_gate_witness :
    ((preparePluginForInstallation baseEnv s0).2.2).any isStagedEv = true ∧
    precedesB isBoolPromptEv isStagedEv
      (preparePluginForInstallation baseEnv s0).2.2 = true :=
  ⟨by decide,
    (warning_confirmation_gate baseEnv s0 (Or.inl rfl) (by decide)).2.2.2 rfl⟩

end InstallPlugin

namespace InstallPlugin

/-- C4: the command discards the fetch error.  When the failed fetch left
no file, the subsequent `os.Stat` dereference panics instead of returning
`FetchError`; when it left a partial file, the pipeline continues to
validation and even commits the partial download — in neither case does
the attempt terminate with `FetchError`. -/
theorem fetch_error_is_discarded :
    outcomeOf (Execute envFetchFail emptyState) = .panicked ∧
    (∀ m, outcomeOf (Execute envFetchFail emptyState) ≠
        .error (.fetchFailure m)) ∧
    envFetchFail.fetchErr = some (.fetchFailure "connection refused") ∧
    outcomeOf (Execute envFetchPartial emptyState) = .ok ∧
    (traceOf (Execute envFetchPartial emptyState)).any isValidateEv = true := by
  refine ⟨by decide, ?_, by decide, by decide, by decide⟩
  intro m h
  have hp : outcomeOf (Execute envFetchFail emptyState) = .panicked := by decide
  rw [hp] at h
  exact Outcome.noConfusion h

/-- C8: for an argument that is neither an existing file nor an HTTP(S)
URL the command fails with `UnsupportedURLSchemeError` immediately; the
registered-repository flag is never consulted, so the result is identical
for any repository value and no actor or UI interaction happens. -/
theorem unknown_source_no_repo_lookup :
    outcomeOf (Execute envRepoName emptyState) =
      .error (.unsupportedURLScheme "plugin-echo") ∧
    Execute envRepoName emptyState =
      Execute { envRepoName with registeredRepository := "Other-Repo" }
        emptyState ∧
    traceOf (Execute envRepoName emptyState) = [.fileRemoved ""] :=
  ⟨by decide, by decide, by decide⟩

end InstallPlugin

namespace InstallPlugin

/-- C1 counterexample: with `echo` 1.0.0 installed and a candidate binary
validating as `echo` 2.0.0, the no-force rejection carries 2.0.0 — the
candidate's version, not the installed (conflicting) plugin's 1.0.0. -/
theorem alreadyInstalled_version_is_candidate :
    outcomeOf (Execute envNewVersion sEchoInstalled) =
      .error (.alreadyInstalled "echo" "2.0.0" "pl") ∧
    lookupEntry sEchoInstalled.registry "echo" =
      some ⟨"echo", "1.0.0", "plugins/echo"⟩ ∧
    (Outcome.error (.alreadyInstalled "echo" "2.0.0" "pl") ≠
      .error (.alreadyInstalled "echo" "1.0.0" "pl")) :=
  ⟨by decide, by decide, by decide⟩

/-- C1 (amended): a validated plugin whose name is already installed is
rejected without force: the error carries the name and the candidate's
version, no uninstall or install is performed, the registry is unchanged,
and every pre-existing file other than the staged temp copy survives. -/
theorem alreadyInstalled_noForce_rejects (env : Env) (s : SysState)
    (temp : String) (s1 : SysState) (tr1 : List Event) (p : Plugin)
    (hexp : env.experimental = true) (harg : env.arg ≠ "")
    (hprep : preparePluginForInstallation env s = (.ret temp none, s1, tr1))
    (hrpc : env.rpcErr = none)
    (hval : env.validateResult = .ok p)
    (hinst : isInstalled s.registry p.name = true)
    (hforce : env.force = false) :
    outcomeOf (Execute env s) =
      .error (.alreadyInstalled p.name p.version env.arg) ∧
    (stateOf (Execute env s)).registry = s.registry ∧
    (traceOf (Execute env s)).any isUninstallEv = false ∧
    (traceOf (Execute env s)).any isInstallEv = false ∧
    ∀ q, q ∈ s.fs → q ≠ temp → q ∈ (stateOf (Execute env s)).fs := by
  have hargB : (env.arg == "") = false := by simp [harg]
  have hreg : s1.registry = s.registry := by
    have h1 := (prepare_spec env s).1
    rw [hprep] at h1
    exact h1
  have hfs : ∀ q, q ∈ s.fs → q ∈ s1.fs := by
    have h2 := (prepare_spec env s).2.1
    rw [hprep] at h2
    exact h2
  have hna : tr1.any isUninstallEv = false := by
    have h3 := (prepare_spec env s).2.2.1
    rw [hprep] at h3
    exact h3
  have hnb : tr1.any isInstallEv = false := by
    have h4 := (prepare_spec env s).2.2.2.1
    rw [hprep] at h4
    exact h4
  have hrun : Execute env s = executeAfterPrepare env temp none s1 tr1 := by
    simp [Execute, hexp, hargB, hprep]
  rw [hrun]
  have hinst1 : isInstalled s1.registry p.name = true := by rw [hreg]; exact hinst
  refine ⟨?_, ?_, ?_, ?_, ?_⟩
  · simp [executeAfterPrepare, hrpc, hval, hinst1, hforce, finish, outcomeOf]
  · simp [executeAfterPrepare, hrpc, hval, hinst1, hinst, hforce, finish,
      stateOf, hreg]
  · simp [executeAfterPrepare, hrpc, hval, hinst1, hforce, finish, traceOf,
      List.any_append, hna, isUninstallEv]
  · simp [executeAfterPrepare, hrpc, hval, hinst1, hforce, finish, traceOf,
      List.any_append, hnb, isInstallEv]
  · intro q hq hne
    simp only [executeAfterPrepare, hrpc, hval, hinst1, hforce, finish, stateOf,
      if_true]
    simp [hforce]
    exact mem_removeFile_of_ne temp q s1.fs hne (hfs q hq)

/-- Witness for the amended C1 theorem at a concrete input. -/
theorem alreadyInstalled_noForce_rejects_witness :
    preparePluginForInstallation envNewVersion sEchoInstalled =
      (.ret "tmp/copy" none, sEchoAfterPrep, trFilePrompt) ∧
    isInstalled sEchoInstalled.registry "echo" = true ∧
    outcomeOf (Execute envNewVersion sEchoInstalled) =
      .error (.alreadyInstalled "echo" "2.0.0" "pl") ∧
    (stateOf (Execute envNewVersion sEchoInstalled)).registry =
      sEchoInstalled.registry :=
  ⟨by decide, by decide,
    (alreadyInstalled_noForce_rejects envNewVersion sEchoInstalled "tmp/copy"
      sEchoAfterPrep trFilePrompt ⟨"echo", "2.0.0"⟩ rfl (by decide)
      (by decide) rfl rfl (by decide) rfl).1,
    (alreadyInstalled_noForce_rejects envNewVersion sEchoInstalled "tmp/copy"
      sEchoAfterPrep trFilePrompt ⟨"echo", "2.0.0"⟩ rfl (by decide)
      (by decide) rfl rfl (by decide) rfl).2.1⟩

end InstallPlugin

namespace InstallPlugin

/-- C2: with the force flag and the plugin name already installed, the
orchestrator uninstalls the existing entry (registry record and installed
binary) before the install step; a failing uninstall aborts the attempt
with the uninstall error, leaving the registry unchanged and never calling
install. -/
theorem force_reinstall_uninstalls_first (env : Env) (s : SysState)
    (temp : String) (s1 : SysState) (tr1 : List Event) (p : Plugin)
    (hexp : env.experimental = true) (harg : env.arg ≠ "")
    (hprep : preparePluginForInstallation env s = (.ret temp none, s1, tr1))
    (hrpc : env.rpcErr = none)
    (hval : env.validateResult = .ok p)
    (hinst : isInstalled s.registry p.name = true)
    (hforce : env.force = true) :
    (∀ e, env.uninstallErr = some e →
        outcomeOf (Execute env s) = .error e ∧
        (stateOf (Execute env s)).registry = s.registry ∧
        (traceOf (Execute env s)).any isInstallEv = false) ∧
    (env.uninstallErr = none →
        precedesB isUninstallEv isInstallEv (traceOf (Execute env s)) = true ∧
        (env.installErr = none →
          outcomeOf (Execute env s) = .ok ∧
          (stateOf (Execute env s)).registry =
            ⟨p.name, p.version, installLocation p.name⟩ ::
              s.registry.filter (fun en => en.name != p.name) ∧
          (∀ e0, lookupEntry s.registry p.name = some e0 →
            e0.binPath ≠ installLocation p.name →
            e0.binPath ∉ (stateOf (Execute env s)).fs))) := by
  have hargB : (env.arg == "") = false := by simp [harg]
  have hreg : s1.registry = s.registry := by
    have h1 := (prepare_spec env s).1
    rw [hprep] at h1
    exact h1
  have hna : tr1.any isUninstallEv = false := by
    have h3 := (prepare_spec env s).2.2.1
    rw [hprep] at h3
    exact h3
  have hnb : tr1.any isInstallEv = false := by
    have h4 := (prepare_spec env s).2.2.2.1
    rw [hprep] at h4
    exact h4
  have hrun : Execute env s = executeAfterPrepare env temp none s1 tr1 := by
    simp [Execute, hexp, hargB, hprep]
  rw [hrun]
  have hinst1 : isInstalled s1.registry p.name = true := by
    rw [hreg]; exact hinst
  constructor
  · intro e hu
    refine ⟨?_, ?_, ?_⟩
    · simp [executeAfterPrepare, hrpc, hval, hinst1, hforce, uninstallPlugin,
        hu, finish, outcomeOf]
    · simp [executeAfterPrepare, hrpc, hval, hinst1, hinst, hforce,
        uninstallPlugin, hu, finish, stateOf, hreg]
    · simp [executeAfterPrepare, hrpc, hval, hinst1, hforce, uninstallPlugin,
        hu, finish, traceOf, List.any_append, hnb, isInstallEv]
  · intro hu
    constructor
    · rcases hI : env.installErr with _ | e
      · rw [show traceOf (executeAfterPrepare env temp none s1 tr1) =
            tr1 ++ [Event.validateCalled temp,
              Event.displayText alreadyInstalledMsg,
              Event.uninstallCalled p.name, Event.displayOK,
              Event.displayText uninstalledMsg,
              Event.displayText installingMsg,
              Event.installCalled temp p.name, Event.displayOK,
              Event.displayText installedMsg, Event.fileRemoved temp] from by
          simp [executeAfterPrepare, hrpc, hval, hinst1, hforce,
            uninstallPlugin, hu, installPlugin, hI, finish, traceOf]]
        rw [precedesB_append_left _ _ _ _ hna hnb]
        simp [precedesB, firstIdxFrom, isUninstallEv, isInstallEv]
      · rw [show traceOf (executeAfterPrepare env temp none s1 tr1) =
            tr1 ++ [Event.validateCalled temp,
              Event.displayText alreadyInstalledMsg,
              Event.uninstallCalled p.name, Event.displayOK,
              Event.displayText uninstalledMsg,
              Event.displayText installingMsg,
              Event.installCalled temp p.name, Event.fileRemoved temp] from by
          simp [executeAfterPrepare, hrpc, hval, hinst1, hforce,
            uninstallPlugin, hu, installPlugin, hI, finish, traceOf]]
        rw [precedesB_append_left _ _ _ _ hna hnb]
        simp [precedesB, firstIdxFrom, isUninstallEv, isInstallEv]
    · intro hIe
      refine ⟨?_, ?_, ?_⟩
      · simp [executeAfterPrepare, hrpc, hval, hinst1, hforce, uninstallPlugin,
          hu, installPlugin, hIe, finish, outcomeOf]
      · simp [executeAfterPrepare, hrpc, hval, hinst1, hinst, hforce,
          uninstallPlugin, hu, installPlugin, hIe, finish, stateOf,
          installEffect, uninstallEffect_registry, filter_idem_entries, hreg]
      · intro e0 hlook hne
        rw [show (stateOf (executeAfterPrepare env temp none s1 tr1)).fs =
            removeFile temp (installLocation p.name ::
              removeFile temp (removeFile e0.binPath s1.fs)) from by
          simp [executeAfterPrepare, hrpc, hval, hinst1, hinst, hforce,
            uninstallPlugin, hu, installPlugin, hIe, finish, stateOf,
            installEffect, uninstallEffect, hreg, hlook]]
        intro hmemf
        have h1 := mem_of_mem_removeFile _ _ _ hmemf
        rcases List.mem_cons.mp h1 with h2 | h2
        · exact hne h2
        · exact not_mem_removeFile _ _ (mem_of_mem_removeFile _ _ _ h2)

/-- Witness for C2 at a concrete input. -/
theorem force_reinstall_uninstalls_first_witness :
    envForceReinstall.force = true ∧
    envForceReinstall.uninstallErr = none ∧
    precedesB isUninstallEv isInstallEv
      (traceOf (Execute envForceReinstall sEchoInstalled)) = true ∧
    outcomeOf (Execute envForceReinstall sEchoInstalled) = .ok := by
  have h := force_reinstall_uninstalls_first envForceReinstall sEchoInstalled
    "tmp/copy" sEchoAfterPrep trForcePrep ⟨"echo", "2.0.0"⟩
    rfl (by decide) (by decide) rfl rfl (by decide) rfl
  exact ⟨rfl, rfl, (h.2 rfl).1, ((h.2 rfl).2 rfl).1⟩

end InstallPlugin
